import Mathlib

/-!
# PageContainer: the login / registration form

A shallow embedding of `src/components/page-container.jsx` and the properties of its
form state machine and submission protocol.

The component is a React function component.  Its `useState` cells are the fields of
`State`; the browser-side collaborators it touches (the `mode` query parameter,
`localStorage`, `fetch`, the `onLoginSuccess` prop, DOM focus) are the remaining fields
of `World`.  Every event handler is a function `World → World` that performs the
handler's `set…` calls; `commit` then runs the two `useEffect` hooks the way React does
after the render that follows the handler.  `handleSubmit` is `async`: it is split at
`await fetch` into `handleSubmitStart` and `handleSubmitResume`; the second suspension,
`await response.json()`, follows with no access to the state in between and belongs to the
resumed part.  Console output is not modelled, and `localStorage.setItem` is taken to
succeed.
-/

namespace PageContainer

/-! ## JavaScript values -/

/-- A parsed JSON value, as `response.json()` yields it.  A number is kept as the two
observations the component can make of it: whether it is truthy (neither zero nor NaN)
and its `String(…)` rendering. -/
inductive Json where
  | null : Json
  | bool (b : Bool) : Json
  | num (truthy : Bool) (text : String) : Json
  | str (s : String) : Json
  | arr (items : List Json) : Json
  | obj (fields : List (String × Json)) : Json

/-- The result of a property read: a JSON value or `undefined`. -/
inductive JsVal where
  | undefined : JsVal
  | json (j : Json) : JsVal

/-- The exceptions that can arise inside the `try` block of `handleSubmit`. -/
inductive JsError where
  | network : JsError
  | syntaxError : JsError
  | typeError : JsError
  | callback : JsError
  deriving DecidableEq

/-- JavaScript truthiness of a JSON value. -/
def Json.truthy : Json → Bool
  | .null => false
  | .bool b => b
  | .num t _ => t
  | .str s => s != ""
  | .arr _ => true
  | .obj _ => true

/-- JavaScript truthiness of a value. -/
def JsVal.truthy : JsVal → Bool
  | .undefined => false
  | .json j => j.truthy

mutual
/-- The string `String(j)` of a JSON value. -/
def Json.toJsString : Json → String
  | .null => "null"
  | .bool b => if b then "true" else "false"
  | .num _ text => text
  | .str s => s
  | .arr items => Json.joinItems items
  | .obj _ => "[object Object]"
/-- The string `items.join(",")`: a `null` element contributes the empty string. -/
def Json.joinItems : List Json → String
  | [] => ""
  | [x] => Json.itemString x
  | x :: y :: rest => Json.itemString x ++ "," ++ Json.joinItems (y :: rest)
/-- One element of `Array.prototype.join`. -/
def Json.itemString : Json → String
  | .null => ""
  | .bool b => if b then "true" else "false"
  | .num _ text => text
  | .str s => s
  | .arr items => Json.joinItems items
  | .obj _ => "[object Object]"
end

/-- The string `String(v)`, as `localStorage.setItem` coerces its value argument. -/
def JsVal.toJsString : JsVal → String
  | .undefined => "undefined"
  | .json j => j.toJsString

/-- The last binding of `key` in a parsed object (a repeated key keeps its last value). -/
def lookupField (key : String) : List (String × Json) → JsVal
  | [] => .undefined
  | (k, v) :: rest =>
    match lookupField key rest with
    | .json j => .json j
    | .undefined => if k = key then .json v else .undefined

/-- The read `data.key` for one of the keys `message`, `access`, `refresh`: it throws a
`TypeError` on `null`, reads the field of an object, and is `undefined` on every other
JSON value. -/
def getProp (data : Json) (key : String) : Except JsError JsVal :=
  match data with
  | .null => .error .typeError
  | .obj fields => .ok (lookupField key fields)
  | _ => .ok .undefined

/-- The `length` of a JavaScript string: its number of UTF-16 code units. -/
def jsLength (s : String) : Nat :=
  s.data.foldl (fun n c => n + (if 65536 ≤ c.toNat then 2 else 1)) 0

/-! ## Component state and its environment -/

/-- The `formData` object of line 19. -/
structure FormData where
  email : String
  password : String
  confirmPassword : String
  deriving DecidableEq

/-- The `useState` cells of the component (lines 19-31).  `formDataRef` stands for the
identity of the `formData` object: every `setFormData` call installs a fresh object, which
is what the dependency array of the second `useEffect` compares.  `formError` holds
whatever `setFormError` was handed, which at line 117 is a value of the response body. -/
structure State where
  formData : FormData
  formDataRef : Nat
  isAgreed : Bool
  formError : Json
  formSuccess : String
  showPassword : Bool
  showConfirmPassword : Bool
  isLoading : Bool
  isLoginMode : Bool
  agreementError : String

/-- The keys of `API_ENDPOINTS` that `handleSubmit` posts to (lines 7-11). -/
inductive Endpoint where
  | login : Endpoint
  | register : Endpoint
  deriving DecidableEq

/-- One `fetch` call of `handleSubmit`: a JSON POST of `username` and `password`. -/
structure Request where
  endpoint : Endpoint
  username : String
  password : String
  deriving DecidableEq

/-- What the suspended `handleSubmit` still refers to after `await fetch`: the
`isLoginMode` of the render in which it was started. -/
structure Pending where
  isLoginMode : Bool
  deriving DecidableEq

/-- The component together with the collaborators it reads and writes. -/
structure World where
  ui : State
  queryMode : Option String
  localStorage : List (String × String)
  requests : List Request
  callbackArgs : List Json
  focusCalls : Nat
  inFlight : List Pending

/-- The call `localStorage.setItem(key, value)`. -/
def setItem (key value : String) (store : List (String × String)) : List (String × String) :=
  (key, value) :: store.filter (fun kv => kv.1 != key)

/-- The call `localStorage.getItem(key)`. -/
def getItem (key : String) (store : List (String × String)) : Option String :=
  store.lookup key

/-- The mode named by the `mode` query parameter (lines 16 and 35). -/
def deriveMode (queryMode : Option String) : String :=
  if queryMode = some "register" then "register" else "login"

/-- The state of the first render, for a page opened with the given `mode` parameter. -/
def init (queryMode : Option String) : World :=
  { ui :=
      { formData := { email := "", password := "", confirmPassword := "" }
        formDataRef := 0
        isAgreed := false
        formError := .str ""
        formSuccess := ""
        showPassword := false
        showConfirmPassword := false
        isLoading := false
        isLoginMode := deriveMode queryMode == "login"
        agreementError := "" }
    queryMode := queryMode
    localStorage := []
    requests := []
    callbackArgs := []
    focusCalls := 0
    inFlight := [] }

/-! ## Effects -/

/-- The first `useEffect` (lines 34-37): recompute the mode from the query parameter. -/
def syncModeEffect (w : World) : World :=
  { w with ui := { w.ui with isLoginMode := deriveMode w.queryMode == "login" } }

/-- The second `useEffect` (lines 51-55): clear each message that is set in the render
the effect belongs to. -/
def resetErrorsEffect (w : World) : World :=
  let u1 := if w.ui.formError.truthy then { w.ui with formError := .str "" } else w.ui
  let u2 := if w.ui.formSuccess != "" then { u1 with formSuccess := "" } else u1
  let u3 := if w.ui.agreementError != "" then { u2 with agreementError := "" } else u2
  { w with ui := u3 }

/-- Whether the dependency array `[formData, isAgreed, isLoginMode]` differs between
two renders. -/
def depsChanged (prev next : World) : Bool :=
  prev.ui.formDataRef != next.ui.formDataRef || prev.ui.isAgreed != next.ui.isAgreed
    || prev.ui.isLoginMode != next.ui.isLoginMode

/-- The effects that follow a handler which took the render `prev` to `next`: the
first effect runs when the query parameter changed, the second when one of its
dependencies changed; when the first effect changed `isLoginMode`, the render it causes
runs the second effect once more.  After that no dependency changes any further. -/
def commit (prev next : World) : World :=
  let a := if prev.queryMode != next.queryMode then syncModeEffect next else next
  let b := if depsChanged prev next then resetErrorsEffect a else a
  if b.ui.isLoginMode != next.ui.isLoginMode then resetErrorsEffect b else b

/-! ## Handlers -/

/-- The `name` attribute of the three text inputs (lines 229, 244, 266). -/
inductive Field where
  | email : Field
  | password : Field
  | confirmPassword : Field
  deriving DecidableEq

/-- The function `validatePassword` (line 48). -/
def validatePassword (password : String) : Bool :=
  decide (8 ≤ jsLength password)

/-- The handler `handleInputChange` (lines 58-61). -/
def handleInputChange (name : Field) (value : String) (w : World) : World :=
  let fd := w.ui.formData
  let fd1 :=
    match name with
    | .email => { fd with email := value }
    | .password => { fd with password := value }
    | .confirmPassword => { fd with confirmPassword := value }
  { w with ui := { w.ui with formData := fd1, formDataRef := w.ui.formDataRef + 1 } }

/-- The handler `handleAgreementChange` (lines 64-67). -/
def handleAgreementChange (checked : Bool) (w : World) : World :=
  let u := { w.ui with isAgreed := checked }
  { w with ui := if checked then { u with agreementError := "" } else u }

/-- The handler `togglePasswordVisibility` (lines 160-163). -/
def togglePasswordVisibility (field : String) (w : World) : World :=
  if field = "password" then
    { w with ui := { w.ui with showPassword := !w.ui.showPassword } }
  else if field = "confirmPassword" then
    { w with ui := { w.ui with showConfirmPassword := !w.ui.showConfirmPassword } }
  else w

/-- The handler `toggleMode` (lines 166-174): `navigate` replaces the query string by
`?mode=<newMode>`. -/
def toggleMode (w : World) : World :=
  let newMode := if w.ui.isLoginMode then "register" else "login"
  { w with
    queryMode := some newMode
    ui :=
      { w.ui with
        formData := { email := "", password := "", confirmPassword := "" }
        formDataRef := w.ui.formDataRef + 1
        formError := .str ""
        formSuccess := ""
        agreementError := ""
        isAgreed := false } }

/-- The part of `handleSubmit` that runs before `await fetch` (lines 70-110). -/
def handleSubmitStart (w : World) : World :=
  let s := w.ui
  if s.formData.email = "" ∨ s.formData.password = "" then
    { w with ui := { s with formError := .str "Пожалуйста, заполните все обязательные поля" } }
  else if validatePassword s.formData.password = false then
    { w with ui := { s with formError := .str "Пароль должен содержать минимум 8 символов" } }
  else if s.isLoginMode = false ∧ s.formData.password ≠ s.formData.confirmPassword then
    { w with ui := { s with formError := .str "Пароли не совпадают" } }
  else if s.isLoginMode = false ∧ s.isAgreed = false then
    { w with
      ui :=
        { s with
          agreementError := "Необходимо принять условия соглашения для продолжения регистрации" }
      focusCalls := w.focusCalls + 1 }
  else
    { w with
      ui := { s with formError := .str "", agreementError := "", isLoading := true }
      requests :=
        w.requests ++
          [{ endpoint := if s.isLoginMode then .login else .register
             username := s.formData.email
             password := s.formData.password }]
      inFlight := w.inFlight ++ [{ isLoginMode := s.isLoginMode }] }

/-- How the network exchange of one submission ends: `fetch` rejects, or a response with
an HTTP status arrives whose body either fails to parse as JSON (`none`) or parses. -/
inductive FetchOutcome where
  | rejected : FetchOutcome
  | response (status : Nat) (body : Option Json) : FetchOutcome

/-- The property `response.ok`: the status is in the range 200-299. -/
def responseOk (status : Nat) : Bool :=
  decide (200 ≤ status) && decide (status ≤ 299)

/-- The expression `v || fallback`. -/
def jsOr (v : JsVal) (fallback : Json) : Json :=
  match v with
  | .undefined => fallback
  | .json j => if j.truthy then j else fallback

/-- The `try` block of `handleSubmit` from the point where `fetch` settles
(lines 103-131).  It returns the world as the block left it and the exception that ended
it, if any.  `callbackThrows` says whether the `onLoginSuccess` prop throws when called. -/
def submitTryBlock (p : Pending) (outcome : FetchOutcome) (callbackThrows : Bool)
    (w : World) : World × Option JsError :=
  match outcome with
  | .rejected => (w, some .network)
  | .response _ none => (w, some .syntaxError)
  | .response status (some data) =>
    if responseOk status = false then
      match getProp data "message" with
      | .error e => (w, some e)
      | .ok m =>
        ({ w with ui := { w.ui with formError := jsOr m (.str "Ошибка при запросе") } }, none)
    else
      match getProp data "access" with
      | .error e => (w, some e)
      | .ok access =>
        let w1 := { w with localStorage := setItem "accessToken" access.toJsString w.localStorage }
        match getProp data "refresh" with
        | .error e => (w1, some e)
        | .ok refresh =>
          let w2 :=
            { w1 with localStorage := setItem "refreshToken" refresh.toJsString w1.localStorage }
          let w3 :=
            { w2 with
              ui :=
                { w2.ui with
                  formSuccess :=
                    if p.isLoginMode then "Вход выполнен успешно!"
                    else "Регистрация успешно завершена!" } }
          let w4 := { w3 with callbackArgs := w3.callbackArgs ++ [data] }
          if callbackThrows then (w4, some .callback)
          else if p.isLoginMode = false then
            ({ w4 with
               ui :=
                 { w4.ui with
                   formData := { email := "", password := "", confirmPassword := "" }
                   formDataRef := w4.ui.formDataRef + 1
                   isAgreed := false } }, none)
          else (w4, none)

/-- The `catch` block of `handleSubmit` (lines 132-134). -/
def submitCatchBlock (_e : JsError) (w : World) : World × Option JsError :=
  ({ w with ui := { w.ui with formError := .str "Произошла ошибка при обработке запроса" } }, none)

/-- The `finally` block of `handleSubmit` (lines 135-137). -/
def submitFinallyBlock (w : World) : World :=
  { w with ui := { w.ui with isLoading := false } }

/-- The statement `try { body } catch (e) { handler } finally { fin }`: the handler runs
on the world the body left behind, `fin` runs on every path, and the statement throws
exactly when the handler does. -/
def tryCatchFinally (body : World → World × Option JsError)
    (handler : JsError → World → World × Option JsError) (fin : World → World)
    (w : World) : World × Option JsError :=
  match body w with
  | (w1, none) => (fin w1, none)
  | (w1, some e) =>
    match handler e w1 with
    | (w2, thrown) => (fin w2, thrown)

/-- The part of `handleSubmit` that runs once `fetch` has settled (lines 101-137): the
resulting world, and the exception that escapes the handler, if any. -/
def handleSubmitResume (p : Pending) (outcome : FetchOutcome) (callbackThrows : Bool)
    (w : World) : World × Option JsError :=
  tryCatchFinally (submitTryBlock p outcome callbackThrows) submitCatchBlock
    submitFinallyBlock w

/-- The `disabled` attribute of the submit button (line 336). -/
def submitDisabled (s : State) : Bool :=
  s.isLoading || (!s.isLoginMode && !s.isAgreed)

/-! ## The component as a transition system -/

/-- The events the component reacts to.  `response i` settles the `i`-th submission in
flight; `navigate` is a change of the `mode` query parameter from outside. -/
inductive Event where
  | input (name : Field) (value : String) : Event
  | agreement (checked : Bool) : Event
  | togglePassword (field : String) : Event
  | toggleMode : Event
  | submit : Event
  | response (i : Nat) (outcome : FetchOutcome) (callbackThrows : Bool) : Event
  | navigate (queryMode : Option String) : Event

/-- The submit action: activating the submit button (by a click or by implicit
submission from a text field) calls `handleSubmit` once; a disabled button does not
activate. -/
def triggerSubmit (w : World) : World :=
  if submitDisabled w.ui then w else commit w (handleSubmitStart w)

/-- The arrival of the outcome of the `i`-th submission in flight. -/
def settle (i : Nat) (outcome : FetchOutcome) (callbackThrows : Bool) (w : World) : World :=
  match w.inFlight.get? i with
  | none => w
  | some p =>
    commit w
      (handleSubmitResume p outcome callbackThrows
        { w with inFlight := w.inFlight.eraseIdx i }).1

/-- One event, followed by the effects of the render it causes. -/
def step (w : World) : Event → World
  | .input name value => commit w (handleInputChange name value w)
  | .agreement checked => commit w (handleAgreementChange checked w)
  | .togglePassword field => commit w (togglePasswordVisibility field w)
  | .toggleMode => commit w (toggleMode w)
  | .submit => triggerSubmit w
  | .response i outcome callbackThrows => settle i outcome callbackThrows w
  | .navigate queryMode => commit w { w with queryMode := queryMode }

/-- The world after a sequence of events. -/
def run (w : World) (events : List Event) : World :=
  events.foldl step w

/-- The worlds the component can be in: those some sequence of events leads to from a
first render. -/
def Reachable (w : World) : Prop :=
  ∃ queryMode events, run (init queryMode) events = w

/-- Whether the validation of `handleSubmit` (lines 74-95) lets the submission through. -/
def passesValidation (s : State) : Bool :=
  s.formData.email != "" && s.formData.password != "" && validatePassword s.formData.password
    && (s.isLoginMode || s.formData.password == s.formData.confirmPassword)
    && (s.isLoginMode || s.isAgreed)

/-- One whole run of `handleSubmit` with no other event in between: the handler is called,
and the submission it put in flight (the last one) is settled with the given outcome. -/
def submitThenSettle (w : World) (outcome : FetchOutcome) (callbackThrows : Bool) : World :=
  settle w.inFlight.length outcome callbackThrows (commit w (handleSubmitStart w))

/-- The loading flag is set exactly while a submission is in flight, and at most one is. -/
def LoadingInv (w : World) : Prop :=
  (w.inFlight = [] ∧ w.ui.isLoading = false) ∨ (∃ p, w.inFlight = [p] ∧ w.ui.isLoading = true)

/-- The mode cell agrees with the query parameter, as the first effect leaves it. -/
def ModeInSync (w : World) : Prop :=
  w.ui.isLoginMode = (deriveMode w.queryMode == "login")

/-! ## The validation order of the specification -/

/-- The validation failures the specification names. -/
inductive ValidationError where
  | missingFields : ValidationError
  | weakPassword : ValidationError
  | passwordMismatch : ValidationError
  | agreementRequired : ValidationError
  deriving DecidableEq

/-- The checks of the specification in its order, each as the condition under which it
fails and the failure it reports. -/
def specChecks (s : State) : List (Bool × ValidationError) :=
  [ (s.formData.email == "" || s.formData.password == "", .missingFields),
    (decide (jsLength s.formData.password < 8), .weakPassword),
    (!s.isLoginMode && s.formData.password != s.formData.confirmPassword, .passwordMismatch),
    (!s.isLoginMode && !s.isAgreed, .agreementRequired) ]

/-- The first failing check of the specification, if any. -/
def specFirstFailure (s : State) : Option ValidationError :=
  ((specChecks s).find? (fun c => c.1)).map (fun c => c.2)

/-- The world with the email field of the form replaced. -/
def withEmail (email : String) (w : World) : World :=
  { w with ui := { w.ui with formData := { w.ui.formData with email := email } } }

/-! ## Example worlds -/

/-- A login form with the email and a password of eight characters typed in. -/
def loginFilled : World :=
  run (init none) [.input .email "user", .input .password "12345678"]

/-- A registration form with all three fields typed in and the agreement accepted. -/
def registerFilled : World :=
  run (init (some "register"))
    [.input .email "user", .input .password "12345678", .input .confirmPassword "12345678",
      .agreement true]

/-- The response body `{"access": "a1", "refresh": "r1"}`. -/
def tokenBody : Json :=
  .obj [("access", .str "a1"), ("refresh", .str "r1")]

/-- The filled-in login form after the submit button was activated: one submission is in
flight. -/
def loginSubmitted : World :=
  run (init none) [.input .email "user", .input .password "12345678", .submit]

/-- A login that succeeds, followed by a second submission of the same form that the
server rejects with status 401. -/
def loginThenRejected : List Event :=
  [.input .email "user", .input .password "12345678", .submit,
    .response 0 (.response 200 (some tokenBody)) false, .submit,
    .response 0 (.response 401 (some (.obj [("message", .str "Invalid credentials")]))) false]

/-! ## Lemmas about the embedding -/

theorem beq_false_of_ne_str {a b : String} (h : a ≠ b) : (a == b) = false := by
  simpa using h

theorem passesValidation_iff (s : State) :
    passesValidation s = true ↔ specFirstFailure s = none := by
  rcases s with ⟨⟨email, pw, confirm⟩, ref, agreed, fe, fs, sp, scp, loading, login, ae⟩
  simp only [passesValidation, specFirstFailure, specChecks, validatePassword]
  by_cases h1 : email = ""
  · subst h1; simp [List.find?]
  by_cases h2 : pw = ""
  · subst h2; simp [List.find?, h1]
  have b1 := beq_false_of_ne_str h1
  have b2 := beq_false_of_ne_str h2
  by_cases h3 : 8 ≤ jsLength pw
  swap
  · simp [List.find?, h1, h2, h3, b1, b2, Nat.not_le.mp h3]
  by_cases h4 : pw = confirm
  · subst h4
    cases login <;> cases agreed <;> simp [List.find?, h1, h2, h3, b1, b2, Nat.not_lt.mpr h3]
  · have b4 : (pw != confirm) = true := by simpa using h4
    cases login <;> cases agreed <;>
      simp [List.find?, h1, h2, h3, h4, b1, b2, b4, Nat.not_lt.mpr h3]

theorem resetErrorsEffect_eq (w : World) :
    resetErrorsEffect w =
      { w with
        ui :=
          { w.ui with
            formError := if w.ui.formError.truthy then .str "" else w.ui.formError
            formSuccess := ""
            agreementError := "" } } := by
  rcases w with ⟨⟨fd, ref, agreed, fe, fs, sp, scp, loading, login, ae⟩, q, ls, rq, cbs, fc, inf⟩
  unfold resetErrorsEffect
  by_cases h1 : fe.truthy = true <;> by_cases h2 : fs = "" <;> by_cases h3 : ae = "" <;>
    simp [h1, h2, h3]

theorem commit_shape (p n : World) :
    ∃ m fe fs ae,
      commit p n =
        { n with
          ui := { n.ui with isLoginMode := m, formError := fe, formSuccess := fs,
                            agreementError := ae } } := by
  unfold commit
  simp only [resetErrorsEffect_eq, syncModeEffect]
  split_ifs <;> exact ⟨_, _, _, _, rfl⟩

theorem commit_eq_of_same_deps (p n : World) (hq : p.queryMode = n.queryMode)
    (hd : depsChanged p n = false) : commit p n = n := by
  unfold commit
  simp [hq, hd]

theorem handleSubmitStart_of_passes (w : World) (h : passesValidation w.ui = true) :
    handleSubmitStart w =
      { w with
        ui := { w.ui with formError := .str "", agreementError := "", isLoading := true }
        requests :=
          w.requests ++
            [{ endpoint := if w.ui.isLoginMode then .login else .register
               username := w.ui.formData.email
               password := w.ui.formData.password }]
        inFlight := w.inFlight ++ [{ isLoginMode := w.ui.isLoginMode }] } := by
  rcases w with ⟨⟨⟨email, pw, confirm⟩, ref, agreed, fe, fs, sp, scp, loading, login, ae⟩,
    q, ls, rq, cbs, fc, inf⟩
  simp only [passesValidation, validatePassword, Bool.and_eq_true, Bool.or_eq_true,
    bne_iff_ne, beq_iff_eq, decide_eq_true_eq] at h
  obtain ⟨⟨⟨⟨h1, h2⟩, h3⟩, h4⟩, h5⟩ := h
  simp only [handleSubmitStart, validatePassword]
  cases login <;> cases agreed <;> simp_all

theorem handleSubmitStart_of_fails (w : World) (h : passesValidation w.ui = false) :
    (∃ m, m ≠ "" ∧ handleSubmitStart w = { w with ui := { w.ui with formError := .str m } })
    ∨ (∃ m, m ≠ "" ∧ w.ui.isLoginMode = false ∧
        handleSubmitStart w =
          { w with ui := { w.ui with agreementError := m }, focusCalls := w.focusCalls + 1 }) := by
  rcases w with ⟨⟨⟨email, pw, confirm⟩, ref, agreed, fe, fs, sp, scp, loading, login, ae⟩,
    q, ls, rq, cbs, fc, inf⟩
  simp only [handleSubmitStart, validatePassword]
  by_cases h1 : email = "" ∨ pw = ""
  · exact Or.inl ⟨"Пожалуйста, заполните все обязательные поля", by decide,
      by rw [if_pos h1]⟩
  by_cases h2 : decide (8 ≤ jsLength pw) = false
  · exact Or.inl ⟨"Пароль должен содержать минимум 8 символов", by decide,
      by rw [if_neg h1, if_pos h2]⟩
  by_cases h3 : login = false ∧ pw ≠ confirm
  · exact Or.inl ⟨"Пароли не совпадают", by decide,
      by rw [if_neg h1, if_neg h2, if_pos h3]⟩
  by_cases h4 : login = false ∧ agreed = false
  · exact Or.inr ⟨"Необходимо принять условия соглашения для продолжения регистрации",
      by decide, h4.1, by rw [if_neg h1, if_neg h2, if_neg h3, if_pos h4]⟩
  · exfalso
    have e1 : email ≠ "" := fun e => h1 (Or.inl e)
    have e2 : pw ≠ "" := fun e => h1 (Or.inr e)
    have e3 : 8 ≤ jsLength pw := by simpa using h2
    by_cases h5 : pw = confirm
    · subst h5
      cases login <;> cases agreed <;>
        simp [passesValidation, validatePassword, e1, e2, e3] at h h4
    · cases login <;> cases agreed <;>
        simp [passesValidation, validatePassword, e1, e2, e3, h5] at h h3

theorem getItem_setItem_same (k v : String) (ls : List (String × String)) :
    getItem k (setItem k v ls) = some v := by
  simp [getItem, setItem, List.lookup]

theorem getItem_setItem_of_ne (k k1 v : String) (ls : List (String × String)) (h : k ≠ k1) :
    getItem k (setItem k1 v ls) = getItem k ls := by
  have hb : (k == k1) = false := beq_false_of_ne_str h
  induction ls with
  | nil => simp [getItem, setItem, List.lookup, hb]
  | cons x xs ih =>
    rcases x with ⟨a, b⟩
    simp only [getItem, setItem, List.lookup, hb] at ih ⊢
    by_cases hak : a = k1
    · subst hak
      simp [List.filter_cons, List.lookup, hb, ih]
    · have hab : (a != k1) = true := by simpa using hak
      simp only [List.filter_cons, hab, if_true, List.lookup]
      cases hka : (k == a) <;> simp [ih]

/-- The submission passes validation: what `handleSubmit` leaves behind at `await fetch`. -/
theorem commit_handleSubmitStart_of_passes (w : World) (h : passesValidation w.ui = true) :
    commit w (handleSubmitStart w) =
      { w with
        ui := { w.ui with formError := .str "", agreementError := "", isLoading := true }
        requests :=
          w.requests ++
            [{ endpoint := if w.ui.isLoginMode then .login else .register
               username := w.ui.formData.email
               password := w.ui.formData.password }]
        inFlight := w.inFlight ++ [{ isLoginMode := w.ui.isLoginMode }] } := by
  have e := handleSubmitStart_of_passes w h
  have hc : commit w (handleSubmitStart w) = handleSubmitStart w :=
    commit_eq_of_same_deps _ _ (by rw [e]) (by rw [e]; simp [depsChanged])
  rw [hc, e]

theorem submitThenSettle_of_passes (w : World) (h : passesValidation w.ui = true)
    (outcome : FetchOutcome) (callbackThrows : Bool) :
    submitThenSettle w outcome callbackThrows =
      commit (commit w (handleSubmitStart w))
        (handleSubmitResume { isLoginMode := w.ui.isLoginMode } outcome callbackThrows
          { w with
            ui := { w.ui with formError := .str "", agreementError := "", isLoading := true }
            requests :=
              w.requests ++
                [{ endpoint := if w.ui.isLoginMode then .login else .register
                   username := w.ui.formData.email
                   password := w.ui.formData.password }] }).1 := by
  unfold submitThenSettle settle
  rw [commit_handleSubmitStart_of_passes w h]
  simp [List.eraseIdx_append_of_length_le]

theorem responseOk_of_2xx (status : Nat) (h : 200 ≤ status ∧ status ≤ 299) :
    responseOk status = true := by
  simp [responseOk, h.1, h.2]

theorem responseOk_of_not_2xx (status : Nat) (h : ¬(200 ≤ status ∧ status ≤ 299)) :
    responseOk status = false := by
  simp only [responseOk]
  by_cases h1 : 200 ≤ status
  · have h2 : ¬status ≤ 299 := fun h2 => h ⟨h1, h2⟩
    simp [h1, h2]
  · simp [h1]

/-- The resumed handler on a response whose status is not 2xx. -/
theorem handleSubmitResume_of_not_ok (p : Pending) (status : Nat) (data : Json)
    (callbackThrows : Bool) (v : World) (hk : responseOk status = false) :
    handleSubmitResume p (.response status (some data)) callbackThrows v =
      ({ v with
         ui :=
           { v.ui with
             formError :=
               match getProp data "message" with
               | .error _ => .str "Произошла ошибка при обработке запроса"
               | .ok m => jsOr m (.str "Ошибка при запросе")
             isLoading := false } }, none) := by
  cases hm : getProp data "message" <;>
    simp [handleSubmitResume, tryCatchFinally, submitTryBlock, submitCatchBlock,
      submitFinallyBlock, hk, hm]

theorem commit_isLoading (p n : World) : (commit p n).ui.isLoading = n.ui.isLoading := by
  obtain ⟨m, fe, fs, ae, h⟩ := commit_shape p n
  rw [h]

theorem commit_inFlight (p n : World) : (commit p n).inFlight = n.inFlight := by
  obtain ⟨m, fe, fs, ae, h⟩ := commit_shape p n
  rw [h]

theorem commit_queryMode (p n : World) : (commit p n).queryMode = n.queryMode := by
  obtain ⟨m, fe, fs, ae, h⟩ := commit_shape p n
  rw [h]

/-- The resumed handler never throws, clears the loading flag, and leaves the mode, the
query parameter, the requests and the submissions in flight as they are. -/
theorem handleSubmitResume_frame (p : Pending) (outcome : FetchOutcome) (callbackThrows : Bool)
    (v : World) :
    (handleSubmitResume p outcome callbackThrows v).2 = none
    ∧ (handleSubmitResume p outcome callbackThrows v).1.ui.isLoading = false
    ∧ (handleSubmitResume p outcome callbackThrows v).1.inFlight = v.inFlight
    ∧ (handleSubmitResume p outcome callbackThrows v).1.queryMode = v.queryMode
    ∧ (handleSubmitResume p outcome callbackThrows v).1.ui.isLoginMode = v.ui.isLoginMode
    ∧ (handleSubmitResume p outcome callbackThrows v).1.requests = v.requests := by
  rcases outcome with _ | ⟨status, _ | data⟩
  · simp [handleSubmitResume, tryCatchFinally, submitTryBlock, submitCatchBlock,
      submitFinallyBlock]
  · simp [handleSubmitResume, tryCatchFinally, submitTryBlock, submitCatchBlock,
      submitFinallyBlock]
  · cases hk : responseOk status
    · rw [handleSubmitResume_of_not_ok _ _ _ _ _ hk]
      exact ⟨rfl, rfl, rfl, rfl, rfl, rfl⟩
    · rcases p with ⟨login⟩
      cases ha : getProp data "access" <;> cases hr : getProp data "refresh" <;>
        cases callbackThrows <;> cases login <;>
        simp [handleSubmitResume, tryCatchFinally, submitTryBlock, submitCatchBlock,
          submitFinallyBlock, hk, ha, hr]

theorem loadingInv_init (q : Option String) : LoadingInv (init q) :=
  Or.inl ⟨rfl, rfl⟩

theorem loadingInv_of_same (w v : World) (h : LoadingInv w) (h1 : v.inFlight = w.inFlight)
    (h2 : v.ui.isLoading = w.ui.isLoading) : LoadingInv v := by
  unfold LoadingInv at h ⊢
  rw [h1, h2]
  exact h

theorem loadingInv_commit (p n : World) (h : LoadingInv n) : LoadingInv (commit p n) :=
  loadingInv_of_same n _ h (commit_inFlight p n) (commit_isLoading p n)

theorem loadingInv_triggerSubmit (w : World) (h : LoadingInv w) :
    LoadingInv (triggerSubmit w) := by
  unfold triggerSubmit
  by_cases hd : submitDisabled w.ui = true
  · rw [if_pos hd]; exact h
  · rw [if_neg hd]
    apply loadingInv_commit
    have hl : w.ui.isLoading = false := by
      cases hl : w.ui.isLoading
      · rfl
      · exact absurd (by simp [submitDisabled, hl]) hd
    cases hv : passesValidation w.ui
    · rcases handleSubmitStart_of_fails w hv with ⟨m, _, e⟩ | ⟨m, _, _, e⟩ <;>
        exact loadingInv_of_same w _ h (by rw [e]) (by rw [e])
    · rw [handleSubmitStart_of_passes w hv]
      rcases h with ⟨h1, _⟩ | ⟨p, _, h2⟩
      · exact Or.inr ⟨⟨w.ui.isLoginMode⟩, by simp [h1], rfl⟩
      · rw [hl] at h2; exact absurd h2 (by decide)

theorem loadingInv_settle (i : Nat) (outcome : FetchOutcome) (callbackThrows : Bool)
    (w : World) (h : LoadingInv w) : LoadingInv (settle i outcome callbackThrows w) := by
  unfold settle
  cases hp : w.inFlight.get? i with
  | none => exact h
  | some p =>
    apply loadingInv_commit
    have hf := handleSubmitResume_frame p outcome callbackThrows
      { w with inFlight := w.inFlight.eraseIdx i }
    rcases h with ⟨h1, _⟩ | ⟨q, h1, _⟩
    · rw [h1] at hp; simp at hp
    · refine Or.inl ⟨?_, hf.2.1⟩
      rw [hf.2.2.1]
      rw [h1] at hp ⊢
      cases i with
      | zero => rfl
      | succ k => simp at hp

theorem loadingInv_step (w : World) (e : Event) (h : LoadingInv w) : LoadingInv (step w e) := by
  cases e with
  | input name value =>
    exact loadingInv_commit _ _ (loadingInv_of_same w _ h rfl rfl)
  | agreement checked =>
    refine loadingInv_commit _ _ (loadingInv_of_same w _ h rfl ?_)
    cases checked <;> rfl
  | togglePassword field =>
    refine loadingInv_commit _ _ (loadingInv_of_same w _ h ?_ ?_) <;>
      (unfold togglePasswordVisibility; split_ifs <;> rfl)
  | toggleMode => exact loadingInv_commit _ _ (loadingInv_of_same w _ h rfl rfl)
  | submit => exact loadingInv_triggerSubmit w h
  | response i outcome callbackThrows => exact loadingInv_settle i outcome callbackThrows w h
  | navigate q => exact loadingInv_commit _ _ (loadingInv_of_same w _ h rfl rfl)

theorem loadingInv_run (events : List Event) (w : World) (h : LoadingInv w) :
    LoadingInv (run w events) := by
  induction events generalizing w with
  | nil => exact h
  | cons e es ih => exact ih _ (loadingInv_step w e h)

theorem loadingInv_of_reachable (w : World) (h : Reachable w) : LoadingInv w := by
  obtain ⟨q, events, rfl⟩ := h
  exact loadingInv_run events _ (loadingInv_init q)

theorem resetErrorsEffect_of_clear (w : World) (h1 : w.ui.formError = .str "")
    (h2 : w.ui.formSuccess = "") (h3 : w.ui.agreementError = "") :
    resetErrorsEffect w = w := by
  rcases w with ⟨⟨fd, ref, agreed, fe, fs, sp, scp, loading, login, ae⟩, q, ls, rq, cbs, fc, inf⟩
  simp only at h1 h2 h3
  subst h1 h2 h3
  rw [resetErrorsEffect_eq]
  simp [Json.truthy]

/-- When the handler left no message set, the effects change at most the mode. -/
theorem commit_of_clear (p n : World) (h1 : n.ui.formError = .str "")
    (h2 : n.ui.formSuccess = "") (h3 : n.ui.agreementError = "") :
    commit p n = if p.queryMode != n.queryMode then syncModeEffect n else n := by
  have hs : resetErrorsEffect (syncModeEffect n) = syncModeEffect n :=
    resetErrorsEffect_of_clear _ h1 h2 h3
  have hn : resetErrorsEffect n = n := resetErrorsEffect_of_clear _ h1 h2 h3
  unfold commit
  by_cases hq : (p.queryMode != n.queryMode) = true
  · simp only [hq, if_true, hs, ite_self]
  · simp only [hq]
    simp [hn]

theorem modeInSync_commit (p n : World) (hp : ModeInSync p)
    (hm : n.ui.isLoginMode = p.ui.isLoginMode) : ModeInSync (commit p n) := by
  unfold ModeInSync at hp ⊢
  unfold commit
  simp only [resetErrorsEffect_eq, syncModeEffect]
  by_cases hq : p.queryMode = n.queryMode
  · have hn : n.ui.isLoginMode = (deriveMode n.queryMode == "login") := by
      rw [hm, hp, hq]
    split_ifs <;> simp_all
  · split_ifs <;> simp_all

theorem handleSubmitStart_isLoginMode (w : World) :
    (handleSubmitStart w).ui.isLoginMode = w.ui.isLoginMode := by
  cases hv : passesValidation w.ui
  · rcases handleSubmitStart_of_fails w hv with ⟨m, _, e⟩ | ⟨m, _, _, e⟩ <;> rw [e]
  · rw [handleSubmitStart_of_passes w hv]

theorem modeInSync_step (w : World) (e : Event) (h : ModeInSync w) : ModeInSync (step w e) := by
  cases e with
  | input name value => exact modeInSync_commit _ _ h rfl
  | agreement checked =>
    refine modeInSync_commit _ _ h ?_
    cases checked <;> rfl
  | togglePassword field =>
    refine modeInSync_commit _ _ h ?_
    unfold togglePasswordVisibility
    split_ifs <;> rfl
  | toggleMode => exact modeInSync_commit _ _ h rfl
  | submit =>
    show ModeInSync (triggerSubmit w)
    unfold triggerSubmit
    split_ifs
    · exact h
    · exact modeInSync_commit _ _ h (handleSubmitStart_isLoginMode w)
  | response i outcome callbackThrows =>
    show ModeInSync (settle i outcome callbackThrows w)
    unfold settle
    cases hp : w.inFlight.get? i with
    | none => exact h
    | some p =>
      exact modeInSync_commit _ _ h
        (handleSubmitResume_frame p outcome callbackThrows _).2.2.2.2.1
  | navigate q => exact modeInSync_commit _ _ h rfl

theorem modeInSync_run (events : List Event) (w : World) (h : ModeInSync w) :
    ModeInSync (run w events) := by
  induction events generalizing w with
  | nil => exact h
  | cons e es ih => exact ih _ (modeInSync_step w e h)

theorem modeInSync_of_reachable (w : World) (h : Reachable w) : ModeInSync w := by
  obtain ⟨q, events, rfl⟩ := h
  exact modeInSync_run events _ rfl

theorem commit_localStorage (p n : World) : (commit p n).localStorage = n.localStorage := by
  obtain ⟨m, fe, fs, ae, h⟩ := commit_shape p n
  rw [h]

theorem commit_callbackArgs (p n : World) : (commit p n).callbackArgs = n.callbackArgs := by
  obtain ⟨m, fe, fs, ae, h⟩ := commit_shape p n
  rw [h]

theorem commit_formError_of_clear (p n : World) (h : n.ui.formError = .str "") :
    (commit p n).ui.formError = .str "" := by
  unfold commit
  simp only [resetErrorsEffect_eq, syncModeEffect]
  split_ifs <;> simp [h]

/-- The resumed handler on a 2xx response whose body is not `null`. -/
theorem handleSubmitResume_of_ok (p : Pending) (status : Nat) (data : Json)
    (callbackThrows : Bool) (v : World) (av rv : JsVal) (hk : responseOk status = true)
    (ha : getProp data "access" = .ok av) (hr : getProp data "refresh" = .ok rv) :
    (handleSubmitResume p (.response status (some data)) callbackThrows v).1 =
      { v with
        localStorage :=
          setItem "refreshToken" rv.toJsString (setItem "accessToken" av.toJsString v.localStorage)
        callbackArgs := v.callbackArgs ++ [data]
        ui :=
          { v.ui with
            formSuccess :=
              if p.isLoginMode then "Вход выполнен успешно!"
              else "Регистрация успешно завершена!"
            formError :=
              if callbackThrows then .str "Произошла ошибка при обработке запроса"
              else v.ui.formError
            formData :=
              if callbackThrows = false ∧ p.isLoginMode = false then
                { email := "", password := "", confirmPassword := "" }
              else v.ui.formData
            formDataRef :=
              if callbackThrows = false ∧ p.isLoginMode = false then v.ui.formDataRef + 1
              else v.ui.formDataRef
            isAgreed :=
              if callbackThrows = false ∧ p.isLoginMode = false then false else v.ui.isAgreed
            isLoading := false } } := by
  rcases p with ⟨login⟩
  cases callbackThrows <;> cases login <;>
    simp [handleSubmitResume, tryCatchFinally, submitTryBlock, submitCatchBlock,
      submitFinallyBlock, hk, ha, hr]

/-- The resumed handler on a response whose body is `null`, whatever the status. -/
theorem handleSubmitResume_of_null (p : Pending) (status : Nat) (callbackThrows : Bool)
    (v : World) :
    (handleSubmitResume p (.response status (some .null)) callbackThrows v).1 =
      { v with
        ui :=
          { v.ui with
            formError := .str "Произошла ошибка при обработке запроса"
            isLoading := false } } := by
  cases hk : responseOk status <;>
    simp [handleSubmitResume, tryCatchFinally, submitTryBlock, submitCatchBlock,
      submitFinallyBlock, hk, getProp]

/-- In Register mode the success message never survives the effects: the reset of the
form data that follows it makes the second effect run. -/
theorem register_success_clears_message (w : World) (status : Nat) (data : Json)
    (av rv : JsVal) (hmode : w.ui.isLoginMode = false) (hval : passesValidation w.ui = true)
    (hok : 200 ≤ status ∧ status ≤ 299) (ha : getProp data "access" = .ok av)
    (hr : getProp data "refresh" = .ok rv) :
    (submitThenSettle w (.response status (some data)) false).ui.formSuccess = "" := by
  have hk := responseOk_of_2xx status hok
  rw [submitThenSettle_of_passes w hval, handleSubmitResume_of_ok _ _ _ _ _ av rv hk ha hr,
    commit_handleSubmitStart_of_passes w hval]
  unfold commit
  simp only [resetErrorsEffect_eq, syncModeEffect, depsChanged, hmode]
  simp

/-! ## The claims -/

/-- Claim C1.  The validation of `handleSubmit` yields the first failing check of the
specification's ordered list and nothing else: empty email or password gives the
missing-fields message, a password shorter than 8 the weak-password message, in Register
mode an unequal confirmation the mismatch message, in Register mode a missing agreement the
agreement error (and a focus request); otherwise the submission proceeds.  Two non-empty
emails give the same outcome. -/
theorem handleSubmit_validation_first_failure (w : World) (e1 e2 : String)
    (he1 : e1 ≠ "") (he2 : e2 ≠ "") :
    (match specFirstFailure w.ui with
      | some .missingFields =>
        handleSubmitStart w =
          { w with
            ui := { w.ui with formError := .str "Пожалуйста, заполните все обязательные поля" } }
      | some .weakPassword =>
        handleSubmitStart w =
          { w with
            ui := { w.ui with formError := .str "Пароль должен содержать минимум 8 символов" } }
      | some .passwordMismatch =>
        handleSubmitStart w =
          { w with ui := { w.ui with formError := .str "Пароли не совпадают" } }
      | some .agreementRequired =>
        handleSubmitStart w =
          { w with
            ui :=
              { w.ui with
                agreementError :=
                  "Необходимо принять условия соглашения для продолжения регистрации" }
            focusCalls := w.focusCalls + 1 }
      | none =>
        handleSubmitStart w =
          { w with
            ui := { w.ui with formError := .str "", agreementError := "", isLoading := true }
            requests :=
              w.requests ++
                [{ endpoint := if w.ui.isLoginMode then .login else .register
                   username := w.ui.formData.email
                   password := w.ui.formData.password }]
            inFlight := w.inFlight ++ [{ isLoginMode := w.ui.isLoginMode }] })
    ∧ specFirstFailure (withEmail e1 w).ui = specFirstFailure (withEmail e2 w).ui
    ∧ (handleSubmitStart (withEmail e1 w)).ui.formError
        = (handleSubmitStart (withEmail e2 w)).ui.formError
    ∧ (handleSubmitStart (withEmail e1 w)).ui.agreementError
        = (handleSubmitStart (withEmail e2 w)).ui.agreementError
    ∧ (handleSubmitStart (withEmail e1 w)).ui.isLoading
        = (handleSubmitStart (withEmail e2 w)).ui.isLoading
    ∧ (handleSubmitStart (withEmail e1 w)).requests.length
        = (handleSubmitStart (withEmail e2 w)).requests.length := by
  rcases w with ⟨⟨⟨email, pw, confirm⟩, ref, agreed, fe, fs, sp, scp, loading, login, ae⟩,
    q, ls, rq, cbs, fc, inf⟩
  have c1 := beq_false_of_ne_str he1
  have c2 := beq_false_of_ne_str he2
  simp only [handleSubmitStart, specFirstFailure, specChecks, validatePassword, withEmail]
  by_cases h2 : pw = ""
  · subst h2
    refine ⟨?_, ?_, ?_, ?_, ?_, ?_⟩ <;> simp [List.find?, he1, he2, c1, c2]
  have b2 := beq_false_of_ne_str h2
  by_cases h3 : 8 ≤ jsLength pw
  swap
  · refine ⟨?_, ?_, ?_, ?_, ?_, ?_⟩
    · by_cases h0 : email = ""
      · subst h0; simp [List.find?, h2, h3, Nat.not_le.mp h3]
      · have b0 := beq_false_of_ne_str h0
        simp [List.find?, h0, h2, h3, b0, b2, Nat.not_le.mp h3]
    all_goals simp [List.find?, he1, he2, h2, h3, c1, c2, b2, Nat.not_le.mp h3]
  by_cases h4 : pw = confirm
  · subst h4
    refine ⟨?_, ?_, ?_, ?_, ?_, ?_⟩
    · by_cases h0 : email = ""
      · subst h0; simp [List.find?, h2, h3]
      · have b0 := beq_false_of_ne_str h0
        cases login <;> cases agreed <;>
          simp [List.find?, h0, h2, h3, b0, b2, Nat.not_lt.mpr h3]
    all_goals
      cases login <;> cases agreed <;>
        simp [List.find?, he1, he2, h2, h3, c1, c2, b2, Nat.not_lt.mpr h3]
  · have b4 : (pw != confirm) = true := by simpa using h4
    refine ⟨?_, ?_, ?_, ?_, ?_, ?_⟩
    · by_cases h0 : email = ""
      · subst h0; simp [List.find?, h2, h3]
      · have b0 := beq_false_of_ne_str h0
        cases login <;> cases agreed <;>
          simp [List.find?, h0, h2, h3, h4, b0, b2, b4, Nat.not_lt.mpr h3]
    all_goals
      cases login <;> cases agreed <;>
        simp [List.find?, he1, he2, h2, h3, h4, c1, c2, b2, b4, Nat.not_lt.mpr h3]

/-- Witness for C1: a filled-in login form passes validation and proceeds, whatever the
shape of the (non-empty) email. -/
theorem handleSubmit_validation_first_failure_witness :
    ("user" ≠ "" ∧ "not an email" ≠ "")
    ∧ specFirstFailure loginFilled.ui = none
    ∧ (handleSubmitStart loginFilled).ui.isLoading = true
    ∧ specFirstFailure (withEmail "user" loginFilled).ui
        = specFirstFailure (withEmail "not an email" loginFilled).ui :=
  ⟨⟨by decide, by decide⟩, by decide,
    congrArg (fun v => v.ui.isLoading)
      (handleSubmit_validation_first_failure loginFilled "user" "not an email"
        (by decide) (by decide)).1,
    (handleSubmit_validation_first_failure loginFilled "user" "not an email"
      (by decide) (by decide)).2.1⟩

/-- Claim C2.  A submission that fails validation issues no request and leaves the token
store, the form data, the agreement flag, the mode, the loading flag and every other cell
unchanged: the state after it differs from the state before it in exactly one error
message, `formError` or `agreementError`. -/
theorem handleSubmit_validation_failure_sets_only_error (w : World)
    (h : passesValidation w.ui = false) :
    (commit w (handleSubmitStart w)).requests = w.requests
    ∧ (commit w (handleSubmitStart w)).inFlight = w.inFlight
    ∧ (commit w (handleSubmitStart w)).localStorage = w.localStorage
    ∧ (commit w (handleSubmitStart w)).callbackArgs = w.callbackArgs
    ∧ (commit w (handleSubmitStart w)).queryMode = w.queryMode
    ∧ (commit w (handleSubmitStart w)).ui.formData = w.ui.formData
    ∧ (commit w (handleSubmitStart w)).ui.isAgreed = w.ui.isAgreed
    ∧ (commit w (handleSubmitStart w)).ui.isLoginMode = w.ui.isLoginMode
    ∧ (commit w (handleSubmitStart w)).ui.isLoading = w.ui.isLoading
    ∧ ((∃ m, m ≠ "" ∧ (commit w (handleSubmitStart w)).ui = { w.ui with formError := .str m })
      ∨ (∃ m, m ≠ "" ∧
          (commit w (handleSubmitStart w)).ui = { w.ui with agreementError := m })) := by
  rcases handleSubmitStart_of_fails w h with ⟨m, hm, e⟩ | ⟨m, hm, _, e⟩
  · have hc : commit w (handleSubmitStart w) = handleSubmitStart w :=
      commit_eq_of_same_deps _ _ (by rw [e]) (by rw [e]; simp [depsChanged])
    rw [hc, e]
    exact ⟨rfl, rfl, rfl, rfl, rfl, rfl, rfl, rfl, rfl, Or.inl ⟨m, hm, rfl⟩⟩
  · have hc : commit w (handleSubmitStart w) = handleSubmitStart w :=
      commit_eq_of_same_deps _ _ (by rw [e]) (by rw [e]; simp [depsChanged])
    rw [hc, e]
    exact ⟨rfl, rfl, rfl, rfl, rfl, rfl, rfl, rfl, rfl, Or.inr ⟨m, hm, rfl⟩⟩

/-- Witness for C2: submitting the empty form of the first render fails validation. -/
theorem handleSubmit_validation_failure_sets_only_error_witness :
    passesValidation (init none).ui = false
    ∧ (commit (init none) (handleSubmitStart (init none))).requests = []
    ∧ (commit (init none) (handleSubmitStart (init none))).ui.isLoading = false :=
  ⟨by decide,
    (handleSubmit_validation_failure_sets_only_error (init none) (by decide)).1,
    (handleSubmit_validation_failure_sets_only_error (init none) (by decide)).2.2.2.2.2.2.2.2.1⟩

/-- Claim C3.  A Login-mode submission that passes validation and receives a 2xx response
whose body has `access = a` and `refresh = r` ends with both tokens in the token store,
the login success message set, the success callback invoked once with the response body,
the form data unchanged and the loading flag cleared. -/
theorem login_success_stores_tokens (w : World) (status : Nat) (data : Json) (a r : String)
    (callbackThrows : Bool)
    (hmode : w.ui.isLoginMode = true) (hval : passesValidation w.ui = true)
    (hok : 200 ≤ status ∧ status ≤ 299)
    (ha : getProp data "access" = .ok (.json (.str a)))
    (hr : getProp data "refresh" = .ok (.json (.str r))) :
    getItem "accessToken"
        (submitThenSettle w (.response status (some data)) callbackThrows).localStorage = some a
    ∧ getItem "refreshToken"
        (submitThenSettle w (.response status (some data)) callbackThrows).localStorage = some r
    ∧ (submitThenSettle w (.response status (some data)) callbackThrows).ui.formSuccess
        = "Вход выполнен успешно!"
    ∧ (submitThenSettle w (.response status (some data)) callbackThrows).callbackArgs
        = w.callbackArgs ++ [data]
    ∧ (submitThenSettle w (.response status (some data)) callbackThrows).ui.formData
        = w.ui.formData
    ∧ (submitThenSettle w (.response status (some data)) callbackThrows).ui.isLoading
        = false := by
  have hk := responseOk_of_2xx status hok
  rw [submitThenSettle_of_passes w hval, commit_handleSubmitStart_of_passes w hval]
  have hne : getItem "accessToken" (setItem "refreshToken" r (setItem "accessToken" a
      w.localStorage)) = some a := by
    rw [getItem_setItem_of_ne _ _ _ _ (by decide), getItem_setItem_same]
  have hres :
      (handleSubmitResume { isLoginMode := w.ui.isLoginMode } (.response status (some data))
        callbackThrows
        { w with
          ui := { w.ui with formError := .str "", agreementError := "", isLoading := true }
          requests :=
            w.requests ++
              [{ endpoint := if w.ui.isLoginMode then .login else .register
                 username := w.ui.formData.email
                 password := w.ui.formData.password }] }).1 =
        { w with
          ui :=
            { w.ui with
              formError :=
                if callbackThrows then .str "Произошла ошибка при обработке запроса"
                else .str ""
              agreementError := ""
              formSuccess := "Вход выполнен успешно!"
              isLoading := false }
          localStorage :=
            setItem "refreshToken" r (setItem "accessToken" a w.localStorage)
          callbackArgs := w.callbackArgs ++ [data]
          requests :=
            w.requests ++
              [{ endpoint := if w.ui.isLoginMode then .login else .register
                 username := w.ui.formData.email
                 password := w.ui.formData.password }] } := by
    cases callbackThrows <;>
      simp [handleSubmitResume, tryCatchFinally, submitTryBlock, submitCatchBlock,
        submitFinallyBlock, hk, ha, hr, hmode, JsVal.toJsString, Json.toJsString]
  rw [hres, commit_eq_of_same_deps]
  · exact ⟨hne, getItem_setItem_same _ _ _, rfl, rfl, rfl, rfl⟩
  · rfl
  · simp [depsChanged]

/-- Witness for C3: the filled-in login form, answered with status 200 and the tokens
`a1` and `r1`. -/
theorem login_success_stores_tokens_witness :
    loginFilled.ui.isLoginMode = true ∧ passesValidation loginFilled.ui = true
    ∧ getItem "accessToken"
        (submitThenSettle loginFilled (.response 200 (some tokenBody)) false).localStorage
        = some "a1"
    ∧ (submitThenSettle loginFilled (.response 200 (some tokenBody)) false).ui.formSuccess
        = "Вход выполнен успешно!" :=
  ⟨by decide, by decide,
    (login_success_stores_tokens loginFilled 200 tokenBody "a1" "r1" false (by decide)
      (by decide) (by decide) rfl rfl).1,
    (login_success_stores_tokens loginFilled 200 tokenBody "a1" "r1" false (by decide)
      (by decide) (by decide) rfl rfl).2.2.1⟩

/-- Claim C4, as amended.  A submission that passes validation and receives a non-2xx
response with a JSON body sets `formError` to the body's `message` verbatim when that is
truthy (for a string: non-empty), to "Ошибка при запросе" when the body is not `null` and
its `message` is absent or falsy, and to "Произошла ошибка при обработке запроса" when the
body is `null`; in every case the token store is unchanged, no success message is set, the
callback is not invoked and the loading flag is cleared. -/
theorem remote_rejection_sets_error (w : World) (status : Nat) (data : Json)
    (callbackThrows : Bool) (hval : passesValidation w.ui = true)
    (hnot : ¬(200 ≤ status ∧ status ≤ 299)) :
    (∀ m, getProp data "message" = .ok (.json m) → m.truthy = true →
      (submitThenSettle w (.response status (some data)) callbackThrows).ui.formError = m)
    ∧ (∀ m, getProp data "message" = .ok (.json m) → m.truthy = false →
      (submitThenSettle w (.response status (some data)) callbackThrows).ui.formError
        = .str "Ошибка при запросе")
    ∧ (getProp data "message" = .ok .undefined →
      (submitThenSettle w (.response status (some data)) callbackThrows).ui.formError
        = .str "Ошибка при запросе")
    ∧ (data = .null →
      (submitThenSettle w (.response status (some data)) callbackThrows).ui.formError
        = .str "Произошла ошибка при обработке запроса")
    ∧ (submitThenSettle w (.response status (some data)) callbackThrows).localStorage
        = w.localStorage
    ∧ (submitThenSettle w (.response status (some data)) callbackThrows).ui.formSuccess
        = w.ui.formSuccess
    ∧ (submitThenSettle w (.response status (some data)) callbackThrows).callbackArgs
        = w.callbackArgs
    ∧ (submitThenSettle w (.response status (some data)) callbackThrows).ui.isLoading
        = false := by
  have hk := responseOk_of_not_2xx status hnot
  rw [submitThenSettle_of_passes w hval, commit_handleSubmitStart_of_passes w hval,
    handleSubmitResume_of_not_ok _ _ _ _ _ hk, commit_eq_of_same_deps]
  · refine ⟨?_, ?_, ?_, ?_, rfl, rfl, rfl, rfl⟩
    · intro m hm ht
      simp [hm, jsOr, ht]
    · intro m hm ht
      simp [hm, jsOr, ht]
    · intro hm
      simp [hm, jsOr]
    · intro hd
      subst hd
      simp [getProp]
  · rfl
  · simp [depsChanged]

/-- Witness for C4 as amended: the filled-in login form, answered with status 401 and the
body `{"message": "Invalid credentials"}`. -/
theorem remote_rejection_sets_error_witness :
    passesValidation loginFilled.ui = true ∧ ¬(200 ≤ 401 ∧ 401 ≤ 299)
    ∧ (submitThenSettle loginFilled
        (.response 401 (some (.obj [("message", .str "Invalid credentials")]))) false).ui.formError
        = .str "Invalid credentials"
    ∧ (submitThenSettle loginFilled
        (.response 401 (some (.obj [("message", .str "Invalid credentials")]))) false).ui.isLoading
        = false :=
  ⟨by decide, by decide,
    (remote_rejection_sets_error loginFilled 401
      (.obj [("message", .str "Invalid credentials")]) false (by decide) (by decide)).1
      (.str "Invalid credentials") rfl rfl,
    (remote_rejection_sets_error loginFilled 401
      (.obj [("message", .str "Invalid credentials")]) false (by decide)
      (by decide)).2.2.2.2.2.2.2⟩

/-- Counterexample to C4 as stated.  Answered with status 401, the body `{"message": ""}`
has a `message` field, yet `formError` is the generic message and not that field; and the
body `null`, which has no `message` field, gives a message other than the generic one. -/
theorem remote_rejection_message_counterexample :
    passesValidation loginFilled.ui = true
    ∧ getProp (.obj [("message", .str "")]) "message" = .ok (.json (.str ""))
    ∧ (submitThenSettle loginFilled
        (.response 401 (some (.obj [("message", .str "")]))) false).ui.formError
        = .str "Ошибка при запросе"
    ∧ (submitThenSettle loginFilled
        (.response 401 (some (.obj [("message", .str "")]))) false).ui.formError
        ≠ .str ""
    ∧ (submitThenSettle loginFilled (.response 401 (some .null)) false).ui.formError
        = .str "Произошла ошибка при обработке запроса"
    ∧ (submitThenSettle loginFilled (.response 401 (some .null)) false).ui.formError
        ≠ .str "Ошибка при запросе" := by
  refine ⟨by decide, rfl, rfl, ?_, rfl, ?_⟩
  · show Json.str "Ошибка при запросе" ≠ Json.str ""
    simp
  · show Json.str "Произошла ошибка при обработке запроса" ≠ Json.str "Ошибка при запросе"
    simp

/-- Claim C5.  A submission that passes validation sets the loading flag when the network
call starts, and whatever the outcome of the exchange (a 2xx or non-2xx response, a body
that fails to parse, a rejected call, a callback that throws) the loading flag is cleared
once `handleSubmit` resolves and no exception escapes the handler; this holds for the
resumed handler in whatever state `v` it finds.  In every reachable state the loading flag
is set exactly while a submission is in flight. -/
theorem submission_clears_loading_on_every_path (w v u : World) (outcome : FetchOutcome)
    (callbackThrows : Bool) (p : Pending) (hval : passesValidation w.ui = true)
    (hu : Reachable u) :
    (commit w (handleSubmitStart w)).ui.isLoading = true
    ∧ (submitThenSettle w outcome callbackThrows).ui.isLoading = false
    ∧ (handleSubmitResume p outcome callbackThrows v).2 = none
    ∧ (commit v (handleSubmitResume p outcome callbackThrows v).1).ui.isLoading = false
    ∧ (u.ui.isLoading = true ↔ u.inFlight ≠ []) := by
  refine ⟨?_, ?_, (handleSubmitResume_frame p outcome callbackThrows v).1, ?_, ?_⟩
  · rw [commit_handleSubmitStart_of_passes w hval]
  · rw [submitThenSettle_of_passes w hval, commit_isLoading]
    exact (handleSubmitResume_frame _ outcome callbackThrows _).2.1
  · rw [commit_isLoading]
    exact (handleSubmitResume_frame p outcome callbackThrows v).2.1
  · rcases loadingInv_of_reachable u hu with ⟨h1, h2⟩ | ⟨q, h1, h2⟩
    · simp [h1, h2]
    · simp [h1, h2]

/-- Witness for C5: the filled-in login form whose network call is rejected. -/
theorem submission_clears_loading_on_every_path_witness :
    passesValidation loginFilled.ui = true ∧ Reachable loginSubmitted
    ∧ (submitThenSettle loginFilled .rejected false).ui.isLoading = false
    ∧ (loginSubmitted.ui.isLoading = true ↔ loginSubmitted.inFlight ≠ []) :=
  ⟨by decide, ⟨none, _, rfl⟩,
    (submission_clears_loading_on_every_path loginFilled loginFilled loginSubmitted .rejected
      false ⟨true⟩ (by decide) ⟨none, _, rfl⟩).2.1,
    (submission_clears_loading_on_every_path loginFilled loginFilled loginSubmitted .rejected
      false ⟨true⟩ (by decide) ⟨none, _, rfl⟩).2.2.2.2⟩

/-- Claim C10.  While the loading flag is set the submit action is inert in either mode:
it starts no network call and changes no state.  Hence in every reachable state at most
one submission is in flight. -/
theorem submit_inert_while_loading (w u : World) (hl : w.ui.isLoading = true)
    (hu : Reachable u) :
    submitDisabled w.ui = true ∧ step w .submit = w ∧ u.inFlight.length ≤ 1 := by
  have hd : submitDisabled w.ui = true := by simp [submitDisabled, hl]
  refine ⟨hd, ?_, ?_⟩
  · show triggerSubmit w = w
    unfold triggerSubmit
    rw [if_pos hd]
  · rcases loadingInv_of_reachable u hu with ⟨h1, _⟩ | ⟨q, h1, _⟩ <;> simp [h1]

/-- Witness for C10: the login form with a submission in flight. -/
theorem submit_inert_while_loading_witness :
    loginSubmitted.ui.isLoading = true ∧ Reachable loginSubmitted
    ∧ step loginSubmitted .submit = loginSubmitted
    ∧ loginSubmitted.inFlight.length ≤ 1 :=
  ⟨by decide, ⟨none, _, rfl⟩,
    (submit_inert_while_loading loginSubmitted loginSubmitted (by decide) ⟨none, _, rfl⟩).2.1,
    (submit_inert_while_loading loginSubmitted loginSubmitted (by decide) ⟨none, _, rfl⟩).2.2⟩

/-- Claim C9.  `toggleMode`, followed by the effects of the render it causes, resets the
form data, `formError`, `formSuccess`, `agreementError` and the agreement flag to their
initial values, writes the other mode to the query parameter and thereby flips the mode,
which is re-derived from that parameter: exactly the value "register" gives Register and
every other value gives Login.  The state is any in which the mode cell agrees with the
query parameter, which every reachable state does. -/
theorem toggleMode_resets_and_flips (w u : World) (q : Option String) (hs : ModeInSync w)
    (hu : Reachable u) :
    (commit w (toggleMode w)).ui.formData = { email := "", password := "", confirmPassword := "" }
    ∧ (commit w (toggleMode w)).ui.formError = .str ""
    ∧ (commit w (toggleMode w)).ui.formSuccess = ""
    ∧ (commit w (toggleMode w)).ui.agreementError = ""
    ∧ (commit w (toggleMode w)).ui.isAgreed = false
    ∧ (commit w (toggleMode w)).queryMode
        = some (if w.ui.isLoginMode then "register" else "login")
    ∧ (commit w (toggleMode w)).ui.isLoginMode = !w.ui.isLoginMode
    ∧ (commit w (toggleMode w)).ui.isLoginMode
        = (deriveMode (commit w (toggleMode w)).queryMode == "login")
    ∧ (deriveMode q = "register" ↔ q = some "register")
    ∧ (deriveMode q = "login" ↔ q ≠ some "register")
    ∧ ModeInSync u := by
  have hsync : ModeInSync (commit w (toggleMode w)) := modeInSync_commit _ _ hs rfl
  have hq : (commit w (toggleMode w)).queryMode
      = some (if w.ui.isLoginMode then "register" else "login") := by
    rw [commit_queryMode]; rfl
  have hder : ∀ q : Option String, (deriveMode q = "register" ↔ q = some "register")
      ∧ (deriveMode q = "login" ↔ q ≠ some "register") := by
    intro q
    unfold deriveMode
    by_cases h : q = some "register" <;> simp [h]
  have hflip : (commit w (toggleMode w)).ui.isLoginMode = !w.ui.isLoginMode := by
    rw [hsync, hq]
    cases w.ui.isLoginMode <;> decide
  have hshape : (commit w (toggleMode w)).ui.formData
        = { email := "", password := "", confirmPassword := "" }
      ∧ (commit w (toggleMode w)).ui.formError = .str ""
      ∧ (commit w (toggleMode w)).ui.formSuccess = ""
      ∧ (commit w (toggleMode w)).ui.agreementError = ""
      ∧ (commit w (toggleMode w)).ui.isAgreed = false := by
    have hc := commit_of_clear w (toggleMode w) rfl rfl rfl
    rw [hc]
    split_ifs <;> exact ⟨rfl, rfl, rfl, rfl, rfl⟩
  exact ⟨hshape.1, hshape.2.1, hshape.2.2.1, hshape.2.2.2.1, hshape.2.2.2.2, hq, hflip,
    hsync, (hder q).1, (hder q).2, modeInSync_of_reachable u hu⟩

/-- Witness for C9: toggling the filled-in login form gives an empty registration form. -/
theorem toggleMode_resets_and_flips_witness :
    ModeInSync loginFilled ∧ Reachable loginFilled
    ∧ loginFilled.ui.isLoginMode = true
    ∧ (commit loginFilled (toggleMode loginFilled)).ui.isLoginMode = false
    ∧ (commit loginFilled (toggleMode loginFilled)).queryMode = some "register"
    ∧ (commit loginFilled (toggleMode loginFilled)).ui.formData
        = { email := "", password := "", confirmPassword := "" } :=
  ⟨rfl, ⟨none, _, rfl⟩, by decide,
    (toggleMode_resets_and_flips loginFilled loginFilled none rfl
      ⟨none, _, rfl⟩).2.2.2.2.2.2.1,
    (toggleMode_resets_and_flips loginFilled loginFilled none rfl
      ⟨none, _, rfl⟩).2.2.2.2.2.1,
    (toggleMode_resets_and_flips loginFilled loginFilled none rfl ⟨none, _, rfl⟩).1⟩

/-- Claim C6, as amended.  A submission that passes validation and receives a 2xx response
whose body lacks the `access` or the `refresh` field fails only when the body is `null`:
then `formError` is set, no success message is set and the token store is unchanged.  For
any other body the component carries out the success path: both keys are written, a
missing field as the string "undefined", the callback is invoked with the body, `formError`
stays empty unless the callback throws, and in Login mode the login success message is
set.  The loading flag is cleared either way. -/
theorem missing_token_fields_are_not_checked (w : World) (status : Nat) (data : Json)
    (callbackThrows : Bool) (hval : passesValidation w.ui = true)
    (hok : 200 ≤ status ∧ status ≤ 299) :
    (data = .null →
      (submitThenSettle w (.response status (some data)) callbackThrows).ui.formError
          = .str "Произошла ошибка при обработке запроса"
      ∧ (submitThenSettle w (.response status (some data)) callbackThrows).ui.formSuccess
          = w.ui.formSuccess
      ∧ (submitThenSettle w (.response status (some data)) callbackThrows).localStorage
          = w.localStorage
      ∧ (submitThenSettle w (.response status (some data)) callbackThrows).callbackArgs
          = w.callbackArgs)
    ∧ (∀ av rv, getProp data "access" = .ok av → getProp data "refresh" = .ok rv →
        (av = .undefined ∨ rv = .undefined) →
      getItem "accessToken"
          (submitThenSettle w (.response status (some data)) callbackThrows).localStorage
          = some av.toJsString
      ∧ getItem "refreshToken"
          (submitThenSettle w (.response status (some data)) callbackThrows).localStorage
          = some rv.toJsString
      ∧ (submitThenSettle w (.response status (some data)) callbackThrows).callbackArgs
          = w.callbackArgs ++ [data]
      ∧ (callbackThrows = false →
          (submitThenSettle w (.response status (some data)) callbackThrows).ui.formError
            = .str "")
      ∧ (w.ui.isLoginMode = true →
          (submitThenSettle w (.response status (some data)) callbackThrows).ui.formSuccess
            = "Вход выполнен успешно!"))
    ∧ JsVal.undefined.toJsString = "undefined"
    ∧ (submitThenSettle w (.response status (some data)) callbackThrows).ui.isLoading
        = false := by
  have hk := responseOk_of_2xx status hok
  rw [submitThenSettle_of_passes w hval]
  refine ⟨?_, ?_, rfl, ?_⟩
  · intro hd
    subst hd
    rw [handleSubmitResume_of_null, commit_eq_of_same_deps]
    · exact ⟨rfl, rfl, rfl, rfl⟩
    · rw [commit_handleSubmitStart_of_passes w hval]
    · rw [commit_handleSubmitStart_of_passes w hval]; simp [depsChanged]
  · intro av rv ha hr _
    rw [handleSubmitResume_of_ok _ _ _ _ _ av rv hk ha hr]
    refine ⟨?_, ?_, ?_, ?_, ?_⟩
    · rw [commit_localStorage]
      show getItem "accessToken" (setItem "refreshToken" _ (setItem "accessToken" _ _)) = _
      rw [getItem_setItem_of_ne _ _ _ _ (by decide), getItem_setItem_same]
    · rw [commit_localStorage]
      exact getItem_setItem_same _ _ _
    · rw [commit_callbackArgs]
    · intro hc
      subst hc
      exact commit_formError_of_clear _ _ rfl
    · intro hm
      rw [commit_eq_of_same_deps]
      · simp [hm]
      · rw [commit_handleSubmitStart_of_passes w hval]
      · rw [commit_handleSubmitStart_of_passes w hval]; simp [depsChanged, hm]
  · rw [commit_isLoading]
    exact (handleSubmitResume_frame _ _ _ _).2.1

/-- Witness for C6 as amended: the filled-in login form, answered with status 200 and the
body `{"access": "a1"}`. -/
theorem missing_token_fields_are_not_checked_witness :
    passesValidation loginFilled.ui = true ∧ (200 ≤ 200 ∧ 200 ≤ 299)
    ∧ getItem "refreshToken"
        (submitThenSettle loginFilled
          (.response 200 (some (.obj [("access", .str "a1")]))) false).localStorage
        = some "undefined"
    ∧ (submitThenSettle loginFilled
          (.response 200 (some (.obj [("access", .str "a1")]))) false).ui.isLoading = false :=
  ⟨by decide, by decide,
    ((missing_token_fields_are_not_checked loginFilled 200 (.obj [("access", .str "a1")]) false
      (by decide) (by decide)).2.1 (.json (.str "a1")) .undefined rfl rfl (Or.inr rfl)).2.1,
    (missing_token_fields_are_not_checked loginFilled 200 (.obj [("access", .str "a1")]) false
      (by decide) (by decide)).2.2.2⟩

/-- Counterexample to C6 as stated.  The filled-in login form, whose token store is empty,
is answered with status 200 and the body `{"access": "a1"}`, which lacks `refresh`: both
keys are written, the success message is set and `formError` is empty. -/
theorem missing_token_fields_counterexample :
    passesValidation loginFilled.ui = true ∧ responseOk 200 = true
    ∧ getProp (.obj [("access", .str "a1")]) "refresh" = .ok .undefined
    ∧ loginFilled.localStorage = []
    ∧ (submitThenSettle loginFilled
          (.response 200 (some (.obj [("access", .str "a1")]))) false).localStorage
        = [("refreshToken", "undefined"), ("accessToken", "a1")]
    ∧ (submitThenSettle loginFilled
          (.response 200 (some (.obj [("access", .str "a1")]))) false).ui.formSuccess
        = "Вход выполнен успешно!"
    ∧ (submitThenSettle loginFilled
          (.response 200 (some (.obj [("access", .str "a1")]))) false).ui.formError
        = .str "" :=
  ⟨by decide, by decide, rfl, rfl, rfl, rfl, rfl⟩

/-- Claim C7, evaluated at a failing input.  The filled-in registration form is answered
with status 200 and the tokens `a1` and `r1`.  The handler sets the registration success
message, but it also replaces the form data, so the second effect runs and clears the
message: once the effects have run the tokens are stored, the form is empty, the agreement
flag is false, and `formSuccess` is the empty string. -/
theorem register_success_message_is_cleared :
    registerFilled.ui.isLoginMode = false ∧ passesValidation registerFilled.ui = true
    ∧ (handleSubmitResume { isLoginMode := false } (.response 200 (some tokenBody)) false
        (commit registerFilled (handleSubmitStart registerFilled))).1.ui.formSuccess
        = "Регистрация успешно завершена!"
    ∧ getItem "accessToken"
        (submitThenSettle registerFilled (.response 200 (some tokenBody)) false).localStorage
        = some "a1"
    ∧ getItem "refreshToken"
        (submitThenSettle registerFilled (.response 200 (some tokenBody)) false).localStorage
        = some "r1"
    ∧ (submitThenSettle registerFilled (.response 200 (some tokenBody)) false).ui.formData
        = { email := "", password := "", confirmPassword := "" }
    ∧ (submitThenSettle registerFilled (.response 200 (some tokenBody)) false).ui.isAgreed
        = false
    ∧ (submitThenSettle registerFilled (.response 200 (some tokenBody)) false).ui.formSuccess
        = "" :=
  ⟨by decide, by decide, rfl, rfl, rfl, rfl, rfl, rfl⟩

/-- Claim C8, evaluated at a failing input.  After a successful login the same form is
submitted again and the server rejects it: the second submission does not clear the success
message, and the reachable state it ends in shows the error message and the success
message together. -/
theorem error_and_success_both_visible :
    Reachable (run (init none) loginThenRejected)
    ∧ (run (init none) (loginThenRejected.take 4)).ui.formSuccess = "Вход выполнен успешно!"
    ∧ (run (init none) (loginThenRejected.take 5)).ui.formSuccess = "Вход выполнен успешно!"
    ∧ (run (init none) loginThenRejected).ui.formError = .str "Invalid credentials"
    ∧ (run (init none) loginThenRejected).ui.formSuccess = "Вход выполнен успешно!"
    ∧ (run (init none) loginThenRejected).ui.formError.truthy = true
    ∧ (run (init none) loginThenRejected).ui.formSuccess ≠ "" :=
  ⟨⟨none, _, rfl⟩, rfl, rfl, rfl, rfl, rfl, by decide⟩

end PageContainer
